import Mathlib

/-!
Shallow embedding of the authentication/session/token core of the
vibe-lottery repository (src/services/AuthService.ts, src/server/auth.ts,
src/routes/auth-demo.tsx), together with theorems settling the spec claims.

Clock convention: every operation that reads the wall clock receives the
current time as an explicit `nowMs : Nat` parameter (epoch milliseconds);
the source's `Math.floor(Date.now() / 1000)` becomes `nowMs / 1000`
(`Nat` division is floor division).  String-rendered timestamps
(`toISOString`, `toLocaleString`) are passed in as opaque `String`
parameters.
-/

namespace VibeLottery

/-- Decidable equality for `Except`, so that concrete runs of the
embedded operations can be checked by `decide`. -/
instance {ε α : Type} [DecidableEq ε] [DecidableEq α] : DecidableEq (Except ε α) := fun x y =>
  match x, y with
  | .error e, .error f =>
      if h : e = f then .isTrue (by rw [h])
      else .isFalse (fun hc => h (Except.error.inj hc))
  | .error _, .ok _ => .isFalse (fun hc => Except.noConfusion hc)
  | .ok _, .error _ => .isFalse (fun hc => Except.noConfusion hc)
  | .ok a, .ok b =>
      if h : a = b then .isTrue (by rw [h])
      else .isFalse (fun hc => h (Except.ok.inj hc))

/-- Tagged error `TokenError` of AuthService.ts: `message` plus optional `code`. -/
structure TokenError where
  message : String
  code : Option String
deriving DecidableEq, Repr

/-- Tagged error `AuthenticationError` of AuthService.ts. -/
structure AuthenticationError where
  message : String
  code : Option String
deriving DecidableEq, Repr

/-- Tagged error `AuthorizationError` of AuthService.ts. -/
structure AuthorizationError where
  message : String
  code : Option String
deriving DecidableEq, Repr

/-- The JSON object obtained from `JSON.parse(atob(token))` when parsing
succeeds, restricted to the fields the code reads.  A field that is absent
in the JSON object is `none`; `generateToken` always writes all three
fields.  (`iat` is written by `generateToken` but never read by
`decodeToken`.) -/
structure JsonPayload where
  userId : Option String
  iat : Option Int
  exp : Option Int
deriving DecidableEq, Repr

/-- The space of token strings, partitioned by how `JSON.parse(atob ·)`
treats them: `enc p` is the base64-JSON encoding of payload object `p`
(what `btoa(JSON.stringify(payload))` produces), and `raw s` is any other
string `s`, on which the parse throws and `decodeToken` lands in its
`catch` branch.  The encoding of a JSON object is never the empty string,
so only `raw ""` is empty. -/
inductive TokenStr where
  | raw (s : String)
  | enc (p : JsonPayload)
deriving DecidableEq, Repr

/-- JS falsiness test `!token` on a token string: true exactly for `""`. -/
def TokenStr.isEmptyStr : TokenStr → Bool
  | .raw s => if s = "" then true else false
  | .enc _ => false

/-- JS truthiness of the `userId` field read off a parsed JSON object:
an absent field (`undefined`) and the empty string are falsy. -/
def jsTruthyStr : Option String → Bool
  | none => false
  | some s => if s = "" then false else true

/-- JS truthiness of the `exp` field read off a parsed JSON object:
an absent field (`undefined`) and the number `0` are falsy. -/
def jsTruthyNum : Option Int → Bool
  | none => false
  | some n => if n = 0 then false else true

/-- `generateToken` (AuthService.ts lines 60-72): builds the payload
`{userId, iat = floor(now/1000), exp = floor(now/1000) + 3600}` and
base64-JSON encodes it.  Never fails. -/
def generateToken (userId : String) (nowMs : Nat) : TokenStr :=
  .enc { userId := some userId
         iat := some ((nowMs / 1000 : Nat) : Int)
         exp := some (((nowMs / 1000 : Nat) : Int) + 3600) }

/-- The `{ userId, exp }` record `decodeToken` returns on success. -/
structure DecodedPayload where
  userId : String
  exp : Int
deriving DecidableEq, Repr

/-- `decodeToken` (AuthService.ts lines 74-107).  A string on which
`JSON.parse(atob ·)` throws yields `DECODE_ERROR` (the catch branch); a
parsed payload with a falsy `userId` or falsy `exp` yields
`INVALID_FORMAT`; a payload whose `exp` is strictly below
`floor(now / 1000)` yields `TOKEN_EXPIRED`; otherwise the
`{userId, exp}` record is returned. -/
def decodeToken (nowMs : Nat) : TokenStr → Except TokenError DecodedPayload
  | .raw _ =>
      .error { message := "Failed to decode token", code := some "DECODE_ERROR" }
  | .enc p =>
      if jsTruthyStr p.userId = false ∨ jsTruthyNum p.exp = false then
        .error { message := "Invalid token format", code := some "INVALID_FORMAT" }
      else if p.exp.getD 0 < ((nowMs / 1000 : Nat) : Int) then
        .error { message := "Token has expired", code := some "TOKEN_EXPIRED" }
      else
        .ok { userId := p.userId.getD "", exp := p.exp.getD 0 }

/-- `UserSession` schema of AuthService.ts. -/
structure UserSession where
  userId : String
  username : String
  isAuthenticated : Bool
  loginTime : Nat
deriving DecidableEq, Repr

/-- `validateToken` (AuthService.ts lines 149-173): fails
`TOKEN_REQUIRED` on a falsy (empty) token string, otherwise delegates to
`decodeToken` and on success builds
`UserSession{userId, username = userId, isAuthenticated = true, loginTime = now}`. -/
def validateToken (nowMs : Nat) (token : TokenStr) : Except TokenError UserSession :=
  if token.isEmptyStr = true then
    .error { message := "Token is required", code := some "TOKEN_REQUIRED" }
  else
    match decodeToken nowMs token with
    | .error e => .error e
    | .ok d =>
        .ok { userId := d.userId, username := d.userId
              isAuthenticated := true, loginTime := nowMs }

/-- `LoginCredentials` schema of AuthService.ts. -/
structure LoginCredentials where
  username : String
  password : String
deriving DecidableEq, Repr

/-- `AuthToken` schema of AuthService.ts: token string, `expiresAt` in
epoch milliseconds, and the userId. -/
structure AuthToken where
  token : TokenStr
  expiresAt : Nat
  userId : String
deriving DecidableEq, Repr

/-- JS `String.prototype.trim()`: strips whitespace from both ends of
the string. -/
def jsTrim (s : String) : String :=
  ⟨((s.data.dropWhile Char.isWhitespace).reverse.dropWhile Char.isWhitespace).reverse⟩

/-- `authenticate` (AuthService.ts lines 112-147): fails
`INVALID_USERNAME` unless the username is exactly `"admin"`; then fails
`PASSWORD_REQUIRED` if the password is falsy or trims to the empty
string; otherwise issues a token via `generateToken` and returns
`AuthToken{token, expiresAt = now + 3600000, userId = username}`. -/
def authenticate (c : LoginCredentials) (nowMs : Nat) : Except AuthenticationError AuthToken :=
  if c.username ≠ "admin" then
    .error { message := "Invalid username. Only \"admin\" is allowed."
             code := some "INVALID_USERNAME" }
  else if c.password = "" ∨ (jsTrim c.password).length = 0 then
    .error { message := "Password is required", code := some "PASSWORD_REQUIRED" }
  else
    .ok { token := generateToken c.username nowMs
          expiresAt := nowMs + 3600000
          userId := c.username }

/-- `SecuredActionResult` schema of AuthService.ts. -/
structure SecuredActionResult where
  message : String
  timestamp : String
  userId : String
  actionType : String
deriving DecidableEq, Repr

/-- `performSecuredAction` (AuthService.ts lines 175-199): decodes the
token directly with `decodeToken` (no empty-token guard), re-wrapping any
`TokenError` as an `AuthorizationError` with the same message and code;
on success returns the result record echoing the decoded `userId` and the
given `actionType`.  `isoNow` stands for `new Date().toISOString()`. -/
def performSecuredAction (nowMs : Nat) (isoNow : String) (token : TokenStr)
    (actionType : String) : Except AuthorizationError SecuredActionResult :=
  match decodeToken nowMs token with
  | .error e => .error { message := e.message, code := e.code }
  | .ok session =>
      .ok { message := "Secured action \"" ++ actionType ++ "\" completed successfully"
            timestamp := isoNow
            userId := session.userId
            actionType := actionType }

/-- `GreetingResult` schema of AuthService.ts. -/
structure GreetingResult where
  message : String
  timestamp : String
  serverTime : String
deriving DecidableEq, Repr

/-- `getPublicGreeting` (AuthService.ts lines 201-215): error channel is
`never` (embedded as `Empty`); returns the fixed greeting message plus
the current time rendered as ISO (`timestamp`) and locale
(`serverTime`) strings. -/
def getPublicGreeting (isoNow localeNow : String) : Except Empty GreetingResult :=
  .ok { message := "Hello! Welcome to the Vibe Lottery authentication demo."
        timestamp := isoNow
        serverTime := localeNow }

/-- Outcome of the resilient wrapper `resilientAction`
(server/auth.ts lines 261-317: `Effect.retry (times 3)` inside
`Effect.timeout (5000 millis)`): success or retries-exhausted failure,
each recording how many times the operation ran, or the timeout
interruption. -/
inductive ResilientOutcome where
  | success (attempts : Nat)
  | failureAfterRetries (attempts : Nat)
  | timedOut
deriving DecidableEq, Repr

/-- The retry loop of `Effect.retry (times retries)` running under the
deadline `tmoMs` of the surrounding `Effect.timeout`.  The operation's
behaviour is supplied explicitly (spec §9 suggests exactly this
deterministic injection): call number `k` (0-based) succeeds iff
`succ k`, and takes `dur k` milliseconds.  `t` is the time elapsed so
far.  If the current call would complete after the deadline, the timeout
interruption wins; otherwise a successful call ends the loop, and a
failed call is retried while retries remain.  `Effect.retry (times n)`
makes up to `n` retries after the initial attempt, so the operation runs
at most `n + 1` times. -/
def retryLoop (succ : Nat → Bool) (dur : Nat → Nat) (tmoMs : Nat) :
    Nat → Nat → Nat → ResilientOutcome
  | 0, k, t =>
      if tmoMs < t + dur k then .timedOut
      else if succ k then .success (k + 1)
      else .failureAfterRetries (k + 1)
  | retries + 1, k, t =>
      if tmoMs < t + dur k then .timedOut
      else if succ k then .success (k + 1)
      else retryLoop succ dur tmoMs retries (k + 1) (t + dur k)

/-- `resilientAction`'s resilience pipeline (server/auth.ts lines
299-301, likewise auth-demo.tsx lines 234-237):
`Effect.retry (times 3)` wrapped in `Effect.timeout (5000 millis)`. -/
def resilientAction (succ : Nat → Bool) (dur : Nat → Nat) : ResilientOutcome :=
  retryLoop succ dur 5000 3 0 0

/-- Total duration of the first `n` calls of an operation whose call `k`
takes `dur k` milliseconds. -/
def totalDur (dur : Nat → Nat) : Nat → Nat
  | 0 => 0
  | n + 1 => totalDur dur n + dur n

/-- The spec's classification of token errors (spec §4.2/§7): the spec's
`Missing` is the code's `TOKEN_REQUIRED`; the spec's `InvalidFormat`
covers the code's `DECODE_ERROR` (string not parseable) and
`INVALID_FORMAT` (missing required fields), both `MalformedFormat` in
spec §4.1; the spec's `Expired` is the code's `TOKEN_EXPIRED`. -/
inductive SpecTokenClass where
  | missing
  | invalidFormat
  | expired
deriving DecidableEq, Repr

/-- Maps a code-level `TokenError` to the spec's classification
(spec §4.2/§7 taxonomy); refinement mapping, written from the spec's
words. -/
def specTokenErrorClass (e : TokenError) : Option SpecTokenClass :=
  match e.code with
  | some "TOKEN_REQUIRED" => some .missing
  | some "DECODE_ERROR" => some .invalidFormat
  | some "INVALID_FORMAT" => some .invalidFormat
  | some "TOKEN_EXPIRED" => some .expired
  | _ => none

/-! Helper lemmas (shared by several proofs). -/

/-- On a non-empty token string, `validateToken` is exactly `decodeToken`
followed by session construction. -/
theorem validateToken_nonempty (nowMs : Nat) (t : TokenStr) (hne : t.isEmptyStr = false) :
    validateToken nowMs t =
      match decodeToken nowMs t with
      | .error e => .error e
      | .ok d =>
          .ok { userId := d.userId, username := d.userId
                isAuthenticated := true, loginTime := nowMs } := by
  simp [validateToken, hne]

/-- A retry step: the call neither times out nor succeeds, and a retry
remains, so the loop moves on to the next call. -/
theorem retryLoop_step (succ : Nat → Bool) (dur : Nat → Nat) (tmo r k t : Nat)
    (hc : ¬ tmo < t + dur k) (hf : succ k = false) :
    retryLoop succ dur tmo (r + 1) k t = retryLoop succ dur tmo r (k + 1) (t + dur k) := by
  simp [retryLoop, hc, hf]

/-- A successful call within the deadline ends the loop with `success`. -/
theorem retryLoop_succeeds (succ : Nat → Bool) (dur : Nat → Nat) (tmo r k t : Nat)
    (hc : ¬ tmo < t + dur k) (hs : succ k = true) :
    retryLoop succ dur tmo r k t = .success (k + 1) := by
  cases r <;> simp [retryLoop, hc, hs]

/-- A failed call with no retries left ends the loop with
`failureAfterRetries`. -/
theorem retryLoop_exhausts (succ : Nat → Bool) (dur : Nat → Nat) (tmo k t : Nat)
    (hc : ¬ tmo < t + dur k) (hf : succ k = false) :
    retryLoop succ dur tmo 0 k t = .failureAfterRetries (k + 1) := by
  simp [retryLoop, hc, hf]

/-- A call that would complete past the deadline is interrupted by the
timeout. -/
theorem retryLoop_times_out (succ : Nat → Bool) (dur : Nat → Nat) (tmo r k t : Nat)
    (hc : tmo < t + dur k) :
    retryLoop succ dur tmo r k t = .timedOut := by
  cases r <;> simp [retryLoop, hc]

/-! Claim theorems. -/

/-- C1: for credentials with username `"admin"` and a password that is
non-empty after trimming, `authenticate` succeeds and the issued token's
payload satisfies `exp = iat + 3600` (one-hour expiry from issuance);
with a password that is empty after trimming it fails with
`AuthenticationError` code `PASSWORD_REQUIRED`. -/
theorem authenticate_admin_token_expiry (c : LoginCredentials) (nowMs : Nat)
    (h : c.username = "admin") :
    ((jsTrim c.password).length ≠ 0 →
      authenticate c nowMs =
        .ok { token := .enc { userId := some "admin"
                              iat := some ((nowMs / 1000 : Nat) : Int)
                              exp := some (((nowMs / 1000 : Nat) : Int) + 3600) }
              expiresAt := nowMs + 3600000
              userId := "admin" }) ∧
    ((jsTrim c.password).length = 0 →
      authenticate c nowMs =
        .error { message := "Password is required", code := some "PASSWORD_REQUIRED" }) := by
  constructor
  · intro hp
    have hpw : ¬(c.password = "" ∨ (jsTrim c.password).length = 0) := by
      rintro (h1 | h2)
      · exact hp (by rw [h1]; rfl)
      · exact hp h2
    unfold authenticate
    rw [h]
    rw [if_neg (by simp), if_neg hpw]
    rfl
  · intro hp
    unfold authenticate
    rw [h]
    rw [if_neg (by simp), if_pos (Or.inr hp)]

/-- C1 witness: concrete runs at username `"admin"` with passwords
`"password123"` and `"   "`. -/
theorem authenticate_admin_token_expiry_witness :
    authenticate ⟨"admin", "password123"⟩ 0 =
      .ok { token := .enc { userId := some "admin", iat := some 0, exp := some 3600 }
            expiresAt := 3600000, userId := "admin" } ∧
    authenticate ⟨"admin", "   "⟩ 0 =
      .error { message := "Password is required", code := some "PASSWORD_REQUIRED" } :=
  ⟨(authenticate_admin_token_expiry ⟨"admin", "password123"⟩ 0 rfl).1 (by decide),
   (authenticate_admin_token_expiry ⟨"admin", "   "⟩ 0 rfl).2 (by decide)⟩

/-- C2: `validateToken` classifies its failures by input class, per the
spec's taxonomy: the empty string fails as `Missing` (code
`TOKEN_REQUIRED`); any unparseable string fails as `InvalidFormat`; a
well-formed payload with truthy fields whose expiry is in the past fails
as `Expired` (code `TOKEN_EXPIRED`); none of these inputs succeeds. -/
theorem validateToken_failure_classification (nowMs : Nat) :
    (∃ e, validateToken nowMs (.raw "") = .error e ∧
      e.code = some "TOKEN_REQUIRED" ∧ specTokenErrorClass e = some .missing) ∧
    (∀ s : String, s ≠ "" → ∃ e, validateToken nowMs (.raw s) = .error e ∧
      specTokenErrorClass e = some .invalidFormat) ∧
    (∀ (u : String) (i : Option Int) (ex : Int), u ≠ "" → ex ≠ 0 →
      ex < ((nowMs / 1000 : Nat) : Int) →
      ∃ e, validateToken nowMs (.enc ⟨some u, i, some ex⟩) = .error e ∧
        e.code = some "TOKEN_EXPIRED" ∧ specTokenErrorClass e = some .expired) := by
  refine ⟨⟨⟨"Token is required", some "TOKEN_REQUIRED"⟩, rfl, rfl, rfl⟩, ?_, ?_⟩
  · intro s hs
    refine ⟨⟨"Failed to decode token", some "DECODE_ERROR"⟩, ?_, rfl⟩
    simp [validateToken, TokenStr.isEmptyStr, hs, decodeToken]
  · intro u i ex hu hex hlt
    refine ⟨⟨"Token has expired", some "TOKEN_EXPIRED"⟩, ?_, rfl, rfl⟩
    have hcond : ¬(jsTruthyStr (some u) = false ∨ jsTruthyNum (some ex) = false) := by
      simp [jsTruthyStr, jsTruthyNum, hu, hex]
    have hlt2 : (some ex).getD 0 < ((nowMs / 1000 : Nat) : Int) := by simpa using hlt
    have hd : decodeToken nowMs (.enc ⟨some u, i, some ex⟩) =
        .error ⟨"Token has expired", some "TOKEN_EXPIRED"⟩ := by
      simp only [decodeToken]
      rw [if_neg hcond, if_pos hlt2]
    rw [validateToken_nonempty nowMs (.enc ⟨some u, i, some ex⟩) rfl, hd]

/-- C2 witness: the three failure classes at concrete inputs
(time 10000 ms, so `floor(now / 1000) = 10`). -/
theorem validateToken_failure_classification_witness :
    (∃ e, validateToken 10000 (.raw "") = .error e ∧
      e.code = some "TOKEN_REQUIRED" ∧ specTokenErrorClass e = some .missing) ∧
    (∃ e, validateToken 10000 (.raw "garbage-not-base64") = .error e ∧
      specTokenErrorClass e = some .invalidFormat) ∧
    (∃ e, validateToken 10000 (.enc ⟨some "admin", some 0, some 1⟩) = .error e ∧
      e.code = some "TOKEN_EXPIRED" ∧ specTokenErrorClass e = some .expired) :=
  ⟨(validateToken_failure_classification 10000).1,
   (validateToken_failure_classification 10000).2.1 "garbage-not-base64" (by decide),
   (validateToken_failure_classification 10000).2.2 "admin" (some 0) 1
     (by decide) (by decide) (by decide)⟩

/-- C3 counterexample: for `userId = ""`, validating a freshly issued
token does not succeed — the encoded `userId` field is falsy, so
`decodeToken` rejects the token as `INVALID_FORMAT` and the round trip
fails. -/
theorem issue_validate_roundtrip_counterexample :
    validateToken 0 (generateToken "" 0) =
      .error { message := "Invalid token format", code := some "INVALID_FORMAT" } := by
  decide

/-- C3 (amended to non-empty userId): for any non-empty `userId`,
validating a token freshly issued for it succeeds at any validation time
whose second-floor does not exceed the token's expiry, and yields a
session with `userId` and `username` equal to the issued `userId` and
`isAuthenticated = true`. -/
theorem issue_validate_roundtrip (uid : String) (issueMs validMs : Nat)
    (hu : uid ≠ "") (ht : validMs / 1000 ≤ issueMs / 1000 + 3600) :
    validateToken validMs (generateToken uid issueMs) =
      .ok { userId := uid, username := uid, isAuthenticated := true
            loginTime := validMs } := by
  have hexp : (((issueMs / 1000 : Nat) : Int) + 3600) ≠ 0 := by omega
  have hcond : ¬(jsTruthyStr (some uid) = false ∨
      jsTruthyNum (some (((issueMs / 1000 : Nat) : Int) + 3600)) = false) := by
    simp only [jsTruthyStr, jsTruthyNum, if_neg hu, if_neg hexp]
    simp
  have hnlt : ¬((some (((issueMs / 1000 : Nat) : Int) + 3600)).getD 0 <
      ((validMs / 1000 : Nat) : Int)) := by
    simp only [Option.getD]
    omega
  have hd : decodeToken validMs (generateToken uid issueMs) =
      .ok ⟨uid, ((issueMs / 1000 : Nat) : Int) + 3600⟩ := by
    simp only [generateToken, decodeToken]
    rw [if_neg hcond, if_neg hnlt]
    rfl
  rw [validateToken_nonempty validMs (generateToken uid issueMs) rfl, hd]

/-- C3 witness: issue for `"admin"` at time 0, validate at time 500 ms. -/
theorem issue_validate_roundtrip_witness :
    validateToken 500 (generateToken "admin" 0) =
      .ok { userId := "admin", username := "admin", isAuthenticated := true
            loginTime := 500 } :=
  issue_validate_roundtrip "admin" 0 500 (by decide) (by decide)

/-- C4 counterexample: at the empty token, `validateToken` fails with
message `"Token is required"` and code `TOKEN_REQUIRED`, but
`performSecuredAction` fails with message `"Failed to decode token"` and
code `DECODE_ERROR` — the validation failure's message and code are not
preserved, because `performSecuredAction` decodes directly instead of
delegating to `validateToken`. -/
theorem performSecuredAction_delegation_counterexample :
    validateToken 0 (.raw "") =
      .error { message := "Token is required", code := some "TOKEN_REQUIRED" } ∧
    performSecuredAction 0 "2024-01-01T00:00:00.000Z" (.raw "") "x" =
      .error { message := "Failed to decode token", code := some "DECODE_ERROR" } ∧
    ("Failed to decode token" ≠ "Token is required" ∧
      some "DECODE_ERROR" ≠ (some "TOKEN_REQUIRED" : Option String)) :=
  ⟨rfl, rfl, by decide⟩

/-- C4 (amended to non-empty tokens): for every non-empty token string,
`performSecuredAction` validates exactly as `validateToken` does: a
validation failure is re-wrapped as an `AuthorizationError` with the same
message and code, and a validation success yields a result echoing the
given `actionType` and the session's `userId`. -/
theorem performSecuredAction_delegates (nowMs : Nat) (isoNow : String) (t : TokenStr)
    (a : String) (hne : t.isEmptyStr = false) :
    (∀ e : TokenError, validateToken nowMs t = .error e →
      performSecuredAction nowMs isoNow t a = .error { message := e.message, code := e.code }) ∧
    (∀ s : UserSession, validateToken nowMs t = .ok s →
      ∃ r, performSecuredAction nowMs isoNow t a = .ok r ∧
        r.actionType = a ∧ r.userId = s.userId) := by
  constructor
  · intro e he
    rw [validateToken_nonempty nowMs t hne] at he
    cases hd : decodeToken nowMs t with
    | error e0 =>
        rw [hd] at he
        injection he with h1
        subst h1
        simp [performSecuredAction, hd]
    | ok d =>
        rw [hd] at he
        exact absurd he (by simp)
  · intro s hs
    rw [validateToken_nonempty nowMs t hne] at hs
    cases hd : decodeToken nowMs t with
    | error e0 =>
        rw [hd] at hs
        exact absurd hs (by simp)
    | ok d =>
        rw [hd] at hs
        injection hs with h1
        subst h1
        refine ⟨{ message := "Secured action \"" ++ a ++ "\" completed successfully"
                  timestamp := isoNow, userId := d.userId, actionType := a },
          ?_, rfl, rfl⟩
        simp [performSecuredAction, hd]

/-- C4 witness: a failing run (unparseable non-empty token, re-wrapped
with the same message and code) and a succeeding run (echoing
`actionType` and `userId`). -/
theorem performSecuredAction_delegates_witness :
    performSecuredAction 0 "iso" (.raw "garbage-not-base64") "x" =
      .error { message := "Failed to decode token", code := some "DECODE_ERROR" } ∧
    (∃ r, performSecuredAction 0 "iso" (.enc ⟨some "admin", some 0, some 10⟩) "x" = .ok r ∧
      r.actionType = "x" ∧ r.userId = "admin") :=
  ⟨(performSecuredAction_delegates 0 "iso" (.raw "garbage-not-base64") "x" rfl).1
      ⟨"Failed to decode token", some "DECODE_ERROR"⟩ rfl,
   (performSecuredAction_delegates 0 "iso" (.enc ⟨some "admin", some 0, some 10⟩) "x" rfl).2
      { userId := "admin", username := "admin", isAuthenticated := true, loginTime := 0 } rfl⟩

/-- C5 counterexample: `Effect.retry (times 3)` makes up to three
retries after the initial attempt, so an always-failing operation is
tried 4 times, not `maxAttempts = 3` times as the claim states. -/
theorem resilientAction_attempts_counterexample :
    resilientAction (fun _ => false) (fun _ => 0) = .failureAfterRetries 4 ∧
    resilientAction (fun _ => false) (fun _ => 0) ≠ .failureAfterRetries 3 := by
  decide

/-- C5 (amended): with retry count 3 and deadline 5000 ms, an operation
that fails its first `N - 1` calls and succeeds on call `N ≤ 3` yields
success, provided the calls complete within the deadline; an operation
that always fails yields the retries-exhausted failure after exactly
4 tries (the initial attempt plus 3 retries) when those tries complete
within the deadline; and the timeout interruption wins whenever the
deadline elapses first: if the calls before some call `m` (`m ≤ 3`) all
fail and complete within the deadline, and call `m` would complete past
it, the outcome is the timeout — whatever call `m` would have
returned. -/
theorem resilientAction_retry_timeout :
    (∀ (succ : Nat → Bool) (dur : Nat → Nat) (N : Nat), 0 < N → N ≤ 3 →
      (∀ k, k < N - 1 → succ k = false) → succ (N - 1) = true →
      totalDur dur N ≤ 5000 →
      resilientAction succ dur = .success N) ∧
    (∀ (succ : Nat → Bool) (dur : Nat → Nat), (∀ k, succ k = false) →
      totalDur dur 4 ≤ 5000 →
      resilientAction succ dur = .failureAfterRetries 4) ∧
    (∀ (succ : Nat → Bool) (dur : Nat → Nat) (m : Nat), m ≤ 3 →
      (∀ k, k < m → succ k = false) →
      totalDur dur m ≤ 5000 → 5000 < totalDur dur (m + 1) →
      resilientAction succ dur = .timedOut) := by
  refine ⟨?_, ?_, ?_⟩
  · intro succ dur N hN1 hN3 hfail hsucc hdur
    interval_cases N <;> simp only [totalDur] at hdur
    · have h0 : succ 0 = true := by simpa using hsucc
      unfold resilientAction
      rw [retryLoop_succeeds succ dur 5000 3 0 0 (by omega) h0]
    · have h0 : succ 0 = false := hfail 0 (by omega)
      have h1 : succ 1 = true := by simpa using hsucc
      unfold resilientAction
      rw [retryLoop_step succ dur 5000 2 0 0 (by omega) h0,
        retryLoop_succeeds succ dur 5000 2 1 (0 + dur 0) (by omega) h1]
    · have h0 : succ 0 = false := hfail 0 (by omega)
      have h1 : succ 1 = false := hfail 1 (by omega)
      have h2 : succ 2 = true := by simpa using hsucc
      unfold resilientAction
      rw [retryLoop_step succ dur 5000 2 0 0 (by omega) h0,
        retryLoop_step succ dur 5000 1 1 (0 + dur 0) (by omega) h1,
        retryLoop_succeeds succ dur 5000 1 2 (0 + dur 0 + dur 1) (by omega) h2]
  · intro succ dur hfail hdur
    simp only [totalDur] at hdur
    unfold resilientAction
    rw [retryLoop_step succ dur 5000 2 0 0 (by omega) (hfail 0),
      retryLoop_step succ dur 5000 1 1 (0 + dur 0) (by omega) (hfail 1),
      retryLoop_step succ dur 5000 0 2 (0 + dur 0 + dur 1) (by omega) (hfail 2),
      retryLoop_exhausts succ dur 5000 3 (0 + dur 0 + dur 1 + dur 2) (by omega) (hfail 3)]
  · intro succ dur m hm hfail h1 h2
    interval_cases m <;> simp only [totalDur] at h1 h2 <;> unfold resilientAction
    · exact retryLoop_times_out succ dur 5000 3 0 0 (by omega)
    · rw [retryLoop_step succ dur 5000 2 0 0 (by omega) (hfail 0 (by omega))]
      exact retryLoop_times_out succ dur 5000 2 1 (0 + dur 0) (by omega)
    · rw [retryLoop_step succ dur 5000 2 0 0 (by omega) (hfail 0 (by omega)),
        retryLoop_step succ dur 5000 1 1 (0 + dur 0) (by omega) (hfail 1 (by omega))]
      exact retryLoop_times_out succ dur 5000 1 2 (0 + dur 0 + dur 1) (by omega)
    · rw [retryLoop_step succ dur 5000 2 0 0 (by omega) (hfail 0 (by omega)),
        retryLoop_step succ dur 5000 1 1 (0 + dur 0) (by omega) (hfail 1 (by omega)),
        retryLoop_step succ dur 5000 0 2 (0 + dur 0 + dur 1) (by omega) (hfail 2 (by omega))]
      exact retryLoop_times_out succ dur 5000 0 3 (0 + dur 0 + dur 1 + dur 2) (by omega)

/-- C5 witness: an operation succeeding on its third call (two failures
first), an always-failing operation exhausting all 4 tries within the
deadline, and an always-failing operation at 2000 ms per call, whose
third call crosses the 5000 ms deadline (4000 ms elapsed before it,
6000 ms at its completion). -/
theorem resilientAction_retry_timeout_witness :
    resilientAction (fun k => decide (k = 2)) (fun _ => 1000) = .success 3 ∧
    resilientAction (fun _ => false) (fun _ => 1000) = .failureAfterRetries 4 ∧
    resilientAction (fun _ => false) (fun _ => 2000) = .timedOut :=
  ⟨resilientAction_retry_timeout.1 (fun k => decide (k = 2)) (fun _ => 1000) 3
      (by decide) (by decide)
      (fun k hk => by simp only [decide_eq_false_iff_not]; omega)
      (by decide) (by decide),
   resilientAction_retry_timeout.2.1 (fun _ => false) (fun _ => 1000)
      (fun _ => rfl) (by decide),
   resilientAction_retry_timeout.2.2 (fun _ => false) (fun _ => 2000) 2
      (by decide) (fun _ _ => rfl) (by decide) (by decide)⟩

/-- C6: for every credentials record whose username is not `"admin"`,
`authenticate` fails with `AuthenticationError` code `INVALID_USERNAME`,
whatever the password is. -/
theorem authenticate_invalid_username (c : LoginCredentials) (nowMs : Nat)
    (h : c.username ≠ "admin") :
    authenticate c nowMs =
      .error { message := "Invalid username. Only \"admin\" is allowed."
               code := some "INVALID_USERNAME" } := by
  unfold authenticate
  rw [if_pos h]

/-- C6 witness: a concrete non-admin login attempt. -/
theorem authenticate_invalid_username_witness :
    authenticate ⟨"user1", "secret"⟩ 42 =
      .error { message := "Invalid username. Only \"admin\" is allowed."
               code := some "INVALID_USERNAME" } :=
  authenticate_invalid_username ⟨"user1", "secret"⟩ 42 (by decide)

/-- C8: `getPublicGreeting` never fails — its error channel is `Empty`,
and every call returns the fixed greeting message together with the
current timestamp strings it was given. -/
theorem getPublicGreeting_never_fails (isoNow localeNow : String) :
    (∀ e : Empty, getPublicGreeting isoNow localeNow ≠ .error e) ∧
    ∃ g, getPublicGreeting isoNow localeNow = .ok g ∧
      g.message = "Hello! Welcome to the Vibe Lottery authentication demo." ∧
      g.timestamp = isoNow ∧ g.serverTime = localeNow :=
  ⟨fun e => e.elim, ⟨_, rfl, rfl, rfl, rfl⟩⟩

/-- C9: `performSecuredAction` on the empty-string token fails with an
`AuthorizationError` carrying code `DECODE_ERROR` (it decodes directly,
without the empty-token guard), whereas `validateToken` on the same input
fails with code `TOKEN_REQUIRED` (the `Missing` classification). -/
theorem performSecuredAction_empty_token_decode_error (nowMs : Nat) (isoNow a : String) :
    performSecuredAction nowMs isoNow (.raw "") a =
      .error { message := "Failed to decode token", code := some "DECODE_ERROR" } ∧
    validateToken nowMs (.raw "") =
      .error { message := "Token is required", code := some "TOKEN_REQUIRED" } :=
  ⟨rfl, rfl⟩

/-- C10: a token whose base64 payload parses to JSON but whose `userId`
or `exp` field is absent or falsy is rejected by `decodeToken` with code
`INVALID_FORMAT` — in particular a parseable token with `exp = 0` is
classified as a format error, not as expired. -/
theorem decodeToken_falsy_fields_invalid_format (nowMs : Nat) (p : JsonPayload)
    (h : jsTruthyStr p.userId = false ∨ jsTruthyNum p.exp = false) :
    decodeToken nowMs (.enc p) =
      .error { message := "Invalid token format", code := some "INVALID_FORMAT" } := by
  simp only [decodeToken]
  rw [if_pos h]

/-- C10 witness: `exp = 0` with a truthy `userId` at a time whose
second-floor (10000) is far past 0 — still `INVALID_FORMAT`, not
`TOKEN_EXPIRED`. -/
theorem decodeToken_falsy_fields_invalid_format_witness :
    decodeToken 10000000 (.enc ⟨some "admin", some 0, some 0⟩) =
      .error { message := "Invalid token format", code := some "INVALID_FORMAT" } :=
  decodeToken_falsy_fields_invalid_format 10000000 ⟨some "admin", some 0, some 0⟩
    (Or.inr (by decide))

end VibeLottery
